import Mathlib

/-!
Verification of `src/cli/commands/public-cmds/import-cmd.js` from the
`bit` repository, against its natural-language specification.

The command class `Import` is embedded shallowly: its `action` method
becomes a pure function from the parsed flags to either a `GeneralError`
(when the flag combination is rejected) or the arguments handed to the
engine entry point `importAction`; its `report` method becomes a pure
function from the engine's result record to either the thrown `Error`
message or the rendered output string.  Strings are Lean `String`s and the
chalk styling functions are embedded as the ANSI-escape wrappers they are.
-/

namespace ImportCmd

/-! ### chalk styling (external collaborator, `chalk` package)

`chalk.green`, `chalk.yellow`, `chalk.red`, `chalk.red.underline` and
`chalk.yellow.underline` wrap their argument in the usual ANSI escape
codes.  Only the fact that they wrap the text (so the text stays a
substring of the result and the result is never empty) matters below. -/

def chalkGreen (s : String) : String := "\x1b[32m" ++ s ++ "\x1b[39m"

def chalkYellow (s : String) : String := "\x1b[33m" ++ s ++ "\x1b[39m"

def chalkRed (s : String) : String := "\x1b[31m" ++ s ++ "\x1b[39m"

def chalkRedUnderline (s : String) : String := "\x1b[31m\x1b[4m" ++ s ++ "\x1b[24m\x1b[39m"

def chalkYellowUnderline (s : String) : String := "\x1b[33m\x1b[4m" ++ s ++ "\x1b[24m\x1b[39m"

/-! ### `Import.action` -/

/-- The boolean/string flags of `bit import` after parsing, with the
defaults of the destructuring in `Import.action` (`tester = false`, …). -/
structure ImportParsedOpts where
  tester : Bool := false
  compiler : Bool := false
  extension : Bool := false
  path : Option String := none
  objects : Bool := false
  write : Bool := false
  displayDependencies : Bool := false
  environment : Bool := false
  override : Bool := false
  verbose : Bool := false
  ignoreDist : Bool := false
  conf : Bool := false
  skipNpmInstall : Bool := false
  ignorePackageJson : Bool := false
deriving Repr, DecidableEq

/-- `GeneralError` from `error/general-error`: an error carrying a message. -/
structure GeneralError where
  msg : String
deriving Repr, DecidableEq

/-- `EnvironmentOptions` built at the top of `Import.action`. -/
structure EnvironmentOptions where
  tester : Bool
  compiler : Bool
  extension : Bool
deriving Repr, DecidableEq

/-- `ImportOptions` built in `Import.action` and passed to `importAction`. -/
structure ImportOptions where
  ids : List String
  verbose : Bool
  writeToPath : Option String
  objectsOnly : Bool
  writeToFs : Bool
  withEnvironments : Bool
  override : Bool
  writeDists : Bool
  writeBitJson : Bool
  installNpmPackages : Bool
  writePackageJson : Bool
deriving Repr, DecidableEq

/-- The arguments of the (unique) call of the engine entry point
`importAction` inside `Import.action`.  `Import.action` producing a value
of this type is exactly "`importAction` gets called with these
arguments"; producing a `GeneralError` instead means the action threw
before any engine/network activity. -/
structure ImportActionCall where
  environmentOptions : EnvironmentOptions
  importOptions : ImportOptions
  packageManagerArgs : List String
deriving Repr, DecidableEq

/-- `Import.action([ids], {...flags}, packageManagerArgs)`: the three
flag-combination guards, then the construction of `EnvironmentOptions`
and `ImportOptions` and the call of `importAction`.  (`ids.length &&
write` is JS truthiness: the guard fires when `ids` is non-empty and
`write` is set.) -/
def Import.action (ids : List String) (o : ImportParsedOpts)
    (packageManagerArgs : List String) : Except GeneralError ImportActionCall :=
  if o.tester && o.compiler then
    .error ⟨"you cant use tester and compiler flags combined"⟩
  else if o.objects && o.write then
    .error ⟨"you cant use --objects and --write flags combined"⟩
  else if !ids.isEmpty && o.write then
    .error ⟨"you cant use --write flag when importing specific ids"⟩
  else
    .ok { environmentOptions := ⟨o.tester, o.compiler, o.extension⟩
          importOptions :=
            { ids := ids
              verbose := o.verbose
              writeToPath := o.path
              objectsOnly := o.objects
              writeToFs := o.write
              withEnvironments := o.environment
              override := o.override
              writeDists := !o.ignoreDist
              writeBitJson := o.conf
              installNpmPackages := !o.skipNpmInstall
              writePackageJson := !o.ignorePackageJson }
          packageManagerArgs := packageManagerArgs }

/-! ### Data carried by the engine result (consumed by `Import.report`) -/

/-- A component id (`BitId`): scope, name, optional version. -/
structure BitId where
  scope : String
  name : String
  version : Option String := none
deriving Repr, DecidableEq

/-- `BitId#toStringWithoutVersion()`: the id rendered without its version. -/
def BitId.toStringWithoutVersion (id : BitId) : String :=
  id.scope ++ "/" ++ id.name

/-- `BitId#toString()`: the id rendered with its version when present. -/
def BitId.toString (id : BitId) : String :=
  match id.version with
  | some v => id.scope ++ "/" ++ id.name ++ "@" ++ v
  | none => id.scope ++ "/" ++ id.name

/-- A consumer `Component`; the report only reads its `id`. -/
structure Component where
  id : BitId
deriving Repr, DecidableEq

/-- `ComponentWithDependencies` from `scope`: the component together with
its dependency and dev-dependency components. -/
structure ComponentWithDependencies where
  component : Component
  dependencies : List Component := []
  devDependencies : List Component := []
deriving Repr, DecidableEq

/-- Modelled from the spec: `ImportDetails` is declared in
`consumer/component/import-components` (not under `src/`): the
per-requested-identifier outcome record {id, resolved version, status}.
The report reads its `id` field (the id string without version). -/
structure ImportDetails where
  id : String
  version : Option String := none
  status : String := "imported"
deriving Repr, DecidableEq

/-- An entry of the `envDependencies` list; line 169 of the source reads
`envDependency.component` before formatting, so entries carry a
`component` field. -/
structure EnvDependency where
  component : Component
deriving Repr, DecidableEq

/-- The `warnings` record of the engine result: three lists of
single-entry objects (package name ↦ version), embedded as pairs. -/
structure Warnings where
  notInPackageJson : List (String × String) := []
  notInNodeModules : List (String × String) := []
  notInBoth : List (String × String) := []
deriving Repr, DecidableEq

/-- The destructured argument of `Import.report` (the engine result after
`displayDependencies` was assoc'ed onto it by `action`). -/
structure ReportInput where
  dependencies : Option (List ComponentWithDependencies) := none
  envDependencies : Option (List EnvDependency) := none
  importDetails : List ImportDetails := []
  warnings : Option Warnings := none
  displayDependencies : Bool := false
deriving Repr, DecidableEq

/-! ### Helpers external to the file (utils / ramda / chalk-box) -/

/-- Modelled from the spec: `immutableUnshift` from `utils` (not under
`src/`) returns a new array with the value prepended. -/
def immutableUnshift (l : List String) (v : String) : List String :=
  v :: l

/-- `R.uniq`: de-duplicate, keeping first occurrences. -/
def uniq (l : List String) : List String :=
  l.foldl (fun acc x => if x ∈ acc then acc else acc ++ [x]) []

/-- `Array.prototype.join(sep)`. -/
def joinWith (sep : String) : List String → String
  | [] => ""
  | [x] => x
  | x :: y :: xs => x ++ sep ++ joinWith sep (y :: xs)

/-- Modelled from the spec: `formatPlainComponentItem` from `chalk-box`
(not under `src/`), a presentation collaborator rendering one component
line.  Its exact text is out of the spec's scope; only that it renders
the component is used below. -/
def formatPlainComponentItem (c : Component) : String :=
  "- " ++ chalkGreen c.id.toString

/-- Modelled from the spec: `formatPlainComponentItemWithVersions` from
`chalk-box` (not under `src/`), rendering one component line with its
version details.  Its exact text is out of the spec's scope. -/
def formatPlainComponentItemWithVersions (c : Component) (d : ImportDetails) : String :=
  "- " ++ chalkGreen (c.id.toStringWithoutVersion ++ " " ++ d.status)

/-! ### `Import.report` -/

/-- Line 150: `importDetails.find(c => c.id === component.id.toStringWithoutVersion())`. -/
def findDetails (importDetails : List ImportDetails) (c : Component) : Option ImportDetails :=
  importDetails.find? (fun d => d.id == c.id.toStringWithoutVersion)

/-- Lines 149–153: the `components.map(...)` body: look up each
component's details record, throwing
`missing details of component ${component.id.toString()}` at the first
component without one, otherwise formatting the line. -/
def componentLines (importDetails : List ImportDetails) : List Component → Except String (List String)
  | [] => .ok []
  | c :: cs =>
    match findDetails importDetails c with
    | none => .error ("missing details of component " ++ c.id.toString)
    | some details =>
      (componentLines importDetails cs).map
        (fun rest => formatPlainComponentItemWithVersions c details :: rest)

/-- Lines 145–148: the success title, by number of imported components. -/
def titleFor (n : Nat) : String :=
  if n == 1 then "successfully imported one component"
  else "successfully imported " ++ ToString.toString n ++ " components"

/-- Line 160: the header of the per-dependency listing. -/
def depsHeader (n : Nat) : String :=
  "\n\nsuccessfully imported " ++ ToString.toString n ++ " component dependencies"

/-- Lines 138–165: `dependenciesOutput` stays unset (`none`) when
`dependencies` is absent or empty; otherwise it is the title plus the
formatted component lines, followed by the per-dependency listing when
`displayDependencies` is set and the flattened dependency list is
non-empty.  (`R.flatten` is unary; the second argument at line 142, the
dev-dependency lists, is ignored by ramda.)  An `Except.error` is the
`Error` thrown at line 151. -/
def dependenciesOutput (inp : ReportInput) : Except String (Option String) :=
  match inp.dependencies with
  | none => .ok none
  | some deps =>
    if deps.isEmpty then .ok none
    else
      let components := deps.map (·.component)
      let peerDependencies := (deps.map (·.dependencies)).flatten
      (componentLines inp.importDetails components).map (fun lines =>
        let componentDependenciesOutput :=
          joinWith "\n" (chalkGreen (titleFor components.length) :: lines)
        let peerDependenciesOutput :=
          if !peerDependencies.isEmpty && inp.displayDependencies then
            joinWith "\n" (immutableUnshift (uniq (peerDependencies.map formatPlainComponentItem))
              (chalkGreen (depsHeader components.length)))
          else ""
        some (componentDependenciesOutput ++ peerDependenciesOutput))

/-- Lines 167–172: `envDependenciesOutput` stays unset (`none`) when
`envDependencies` is absent or empty. -/
def envDependenciesOutput (envDependencies : Option (List EnvDependency)) : Option String :=
  match envDependencies with
  | none => none
  | some envs =>
    if envs.isEmpty then none
    else some (joinWith "\n" (immutableUnshift
      (envs.map (fun e => formatPlainComponentItem e.component))
      (chalkGreen "the following component environments were installed")))

/-- JS truthiness of a possibly-unset string: set and non-empty. -/
def strTruthy : Option String → Bool
  | none => false
  | some s => !s.isEmpty

/-- Lines 174–182: `getImportOutput`. -/
def getImportOutput (dOut eOut : Option String) : String :=
  if strTruthy dOut && !strTruthy eOut then dOut.getD ""
  else if !strTruthy dOut && strTruthy eOut then eOut.getD ""
  else if strTruthy dOut && strTruthy eOut then dOut.getD "" ++ "\n\n" ++ eOut.getD ""
  else chalkYellow "nothing to import"

/-- Line 184: `logObject`, rendering a single-entry object. -/
def logObject (p : String × String) : String :=
  "> " ++ p.1 ++ ": " ++ p.2

/-- Lines 189–194: the `notInBoth` section appended to the warning output. -/
def notInBothSection (l : List (String × String)) : String :=
  if l.isEmpty then ""
  else
    chalkRedUnderline "\nerror - missing the following package dependencies. please install and add to package.json.\n"
      ++ chalkRed (joinWith "\n" (l.map logObject) ++ "\n")

/-- Lines 196–199: the `notInPackageJson` section. -/
def notInPackageJsonSection (l : List (String × String)) : String :=
  if l.isEmpty then ""
  else
    chalkYellowUnderline "\nwarning - add the following packages to package.json\n"
      ++ chalkYellow (joinWith "\n" (l.map logObject) ++ "\n")

/-- Lines 201–204: the `notInNodeModules` section. -/
def notInNodeModulesSection (l : List (String × String)) : String :=
  if l.isEmpty then ""
  else
    chalkYellowUnderline "\nwarning - following packages are not installed. please install them.\n"
      ++ chalkYellow (joinWith "\n" (l.map logObject) ++ "\n")

/-- Lines 185–207: `getWarningOutput`: empty for absent warnings;
otherwise `'\n'` plus the three sections, collapsed back to the empty
string when nothing was appended. -/
def getWarningOutput : Option Warnings → String
  | none => ""
  | some w =>
    let output := "\n" ++ notInBothSection w.notInBoth
      ++ notInPackageJsonSection w.notInPackageJson
      ++ notInNodeModulesSection w.notInNodeModules
    if output = "\n" then "" else output

/-- Lines 118–210: `Import.report`.  `Except.error` is the `Error` thrown
at line 151 while mapping the components; otherwise the returned string
is `getImportOutput() + getWarningOutput()`. -/
def Import.report (inp : ReportInput) : Except String String :=
  (dependenciesOutput inp).map (fun dOut =>
    getImportOutput dOut (envDependenciesOutput inp.envDependencies)
      ++ getWarningOutput inp.warnings)

/-! ### The conflict gate of the engine (spec-modelled) -/

/-- Modelled from the spec: the Local Conflict Detector (§4.4) of the
engine lives in `consumer/component/import-components`, which is
not under `src/`; only its e2e test is.  Per the spec, every identifier
whose working copy was modified since last sync yields a `ConflictRecord`,
and if any exists while the override flag is unset, the whole import
aborts with one aggregated error enumerating every conflicting
identifier (the e2e test expects its text to contain `unable to import`
and each conflicted id).  Input: each identifier paired with whether it
is conflicted; output: the error, or the accepted identifiers. -/
def conflictGate (entries : List (String × Bool)) (override : Bool) : Except String (List String) :=
  let conflicted := (entries.filter (fun e => e.2)).map (fun e => e.1)
  if !conflicted.isEmpty && !override then
    .error ("unable to import the following components due to local changes:\n"
      ++ joinWith "\n" conflicted)
  else
    .ok (entries.map (fun e => e.1))

/-- Modelled from the spec: the import engine behind `importAction`
(`consumer/component/import-components`, not under `src/`) performs an
objects-only import — populate the local object store, touch no workspace
files — whenever the options say objects-only or say not to write to the
filesystem.  Per §4.1/§4.5 of the spec, "objects only, no filesystem
write" is the default write policy for import-all unless explicitly
overridden. -/
def directsObjectsOnlyImport (o : ImportOptions) : Bool :=
  o.objectsOnly || !o.writeToFs

/-! ### Helper lemmas about substrings and `joinWith` -/

theorem sub_self (l : List Char) : l <:+: l :=
  ⟨[], [], by simp⟩

theorem sub_append_left {sub a : List Char} (b : List Char) (h : sub <:+: a) :
    sub <:+: a ++ b := by
  obtain ⟨s, t, hst⟩ := h
  exact ⟨s, t ++ b, by rw [← hst]; simp⟩

theorem sub_append_right {sub b : List Char} (a : List Char) (h : sub <:+: b) :
    sub <:+: a ++ b := by
  obtain ⟨s, t, hst⟩ := h
  exact ⟨a ++ s, t, by rw [← hst]; simp⟩

theorem prefix_to_sub {sub a : List Char} (h : sub <+: a) : sub <:+: a := by
  obtain ⟨t, ht⟩ := h
  exact ⟨[], t, by rw [← ht]; simp⟩

theorem sub_joinWith (sep : String) :
    ∀ (xs : List String) (x : String), x ∈ xs → x.data <:+: (joinWith sep xs).data
  | [], x, h => absurd h (List.not_mem_nil x)
  | [x'], x, h => by
    rw [List.mem_singleton] at h
    subst h
    exact sub_self x.data
  | x' :: y :: xs, x, h => by
    rcases List.mem_cons.mp h with h' | h'
    · subst h'
      show x.data <:+: (x ++ sep ++ joinWith sep (y :: xs)).data
      rw [String.data_append, String.data_append]
      exact sub_append_left _ (sub_append_left _ (sub_self x.data))
    · have ih := sub_joinWith sep (y :: xs) x h'
      show x.data <:+: (x' ++ sep ++ joinWith sep (y :: xs)).data
      rw [String.data_append]
      exact sub_append_right _ ih

theorem prefix_joinWith_cons (sep x : String) (xs : List String) :
    x.data <+: (joinWith sep (x :: xs)).data := by
  cases xs with
  | nil => exact ⟨[], by simp [joinWith]⟩
  | cons y t =>
    show x.data <+: (x ++ sep ++ joinWith sep (y :: t)).data
    rw [String.data_append, String.data_append]
    exact ⟨sep.data ++ (joinWith sep (y :: t)).data, by simp⟩

theorem prefix_append_str {sub : List Char} {a : String} (b : String)
    (h : sub <+: a.data) : sub <+: (a ++ b).data := by
  obtain ⟨t, ht⟩ := h
  exact ⟨t ++ b.data, by rw [String.data_append, ← ht]; simp⟩

theorem str_ne_empty_of_length_pos {s : String} (h : 0 < s.length) : s ≠ "" := by
  intro hc
  subst hc
  simp at h

theorem length_pos_of_prefix {sub : List Char} {s : String}
    (hne : sub ≠ []) (h : sub <+: s.data) : 0 < s.length := by
  obtain ⟨t, ht⟩ := h
  have : s.data.length = sub.length + t.length := by rw [← ht]; simp
  have hsub : 0 < sub.length := List.length_pos.mpr hne
  simp only [String.length]
  omega

theorem isEmpty_false_of_length_pos {s : String} (h : 0 < s.length) :
    s.isEmpty = false := by
  cases hs : s.isEmpty
  · rfl
  · have : s = "" := (String.isEmpty_iff s).mp hs
    subst this
    simp at h

/-! ### Helper lemmas about `componentLines` -/

theorem componentLines_isOk (d : List ImportDetails) :
    ∀ l : List Component, (∀ c ∈ l, (findDetails d c).isSome) →
      ∃ lines, componentLines d l = .ok lines
  | [], _ => ⟨[], rfl⟩
  | c :: cs, h => by
    obtain ⟨det, hdet⟩ := Option.isSome_iff_exists.mp (h c (List.mem_cons_self c cs))
    obtain ⟨lines, hl⟩ :=
      componentLines_isOk d cs (fun c' h' => h c' (List.mem_cons_of_mem _ h'))
    exact ⟨formatPlainComponentItemWithVersions c det :: lines,
      by simp [componentLines, hdet, hl, Except.map]⟩

theorem componentLines_error_of_missing (d : List ImportDetails) :
    ∀ l : List Component, (∃ c ∈ l, findDetails d c = none) →
      ∃ c, c ∈ l ∧ findDetails d c = none ∧
        componentLines d l = .error ("missing details of component " ++ c.id.toString)
  | [], h => by
    obtain ⟨c, hc, _⟩ := h
    exact absurd hc (List.not_mem_nil c)
  | c :: cs, h => by
    cases hfd : findDetails d c with
    | none =>
      exact ⟨c, List.mem_cons_self c cs, hfd, by simp [componentLines, hfd]⟩
    | some det =>
      have h' : ∃ c' ∈ cs, findDetails d c' = none := by
        obtain ⟨c', hc', hn⟩ := h
        rcases List.mem_cons.mp hc' with h'' | h''
        · subst h''
          rw [hfd] at hn
          exact absurd hn (by simp)
        · exact ⟨c', h'', hn⟩
      obtain ⟨c', hc', hn, herr⟩ := componentLines_error_of_missing d cs h'
      exact ⟨c', List.mem_cons_of_mem _ hc', hn, by simp [componentLines, hfd, herr, Except.map]⟩

/-! ### Helper lemmas about lengths and the report pipeline -/

theorem chalkGreen_length_pos (s : String) : 0 < (chalkGreen s).length := by
  show 0 < ("\x1b[32m" ++ s ++ "\x1b[39m").length
  rw [String.length_append, String.length_append]
  have h1 : ("\x1b[32m" : String).length = 5 := by decide
  omega

theorem chalkRedUnderline_length_pos (s : String) : 0 < (chalkRedUnderline s).length := by
  show 0 < ("\x1b[31m\x1b[4m" ++ s ++ "\x1b[24m\x1b[39m").length
  rw [String.length_append, String.length_append]
  have h1 : ("\x1b[31m\x1b[4m" : String).length = 9 := by decide
  omega

theorem chalkYellowUnderline_length_pos (s : String) : 0 < (chalkYellowUnderline s).length := by
  show 0 < ("\x1b[33m\x1b[4m" ++ s ++ "\x1b[24m\x1b[39m").length
  rw [String.length_append, String.length_append]
  have h1 : ("\x1b[33m\x1b[4m" : String).length = 9 := by decide
  omega

theorem data_ne_nil_of_length_pos {s : String} (h : 0 < s.length) : s.data ≠ [] := by
  intro hc
  have : s.length = 0 := by simp [String.length, hc]
  omega

theorem isEmpty_eq_false_of_ne_nil {α : Type} {l : List α} (h : l ≠ []) :
    l.isEmpty = false := by
  cases l with
  | nil => exact absurd rfl h
  | cons a as => rfl

theorem except_map_ok {α β γ : Type} (f : β → γ) (e : Except α β) (x : β)
    (h : e = .ok x) : e.map f = .ok (f x) := by
  subst h
  rfl

theorem dependenciesOutput_eq_ok (inp : ReportInput)
    (deps : List ComponentWithDependencies) (lines : List String)
    (hdep : inp.dependencies = some deps) (hne : deps ≠ [])
    (hl : componentLines inp.importDetails (deps.map (·.component)) = .ok lines) :
    dependenciesOutput inp =
      .ok (some (joinWith "\n" (chalkGreen (titleFor deps.length) :: lines) ++
        (if !((deps.map (·.dependencies)).flatten).isEmpty && inp.displayDependencies then
          joinWith "\n" (immutableUnshift
            (uniq (((deps.map (·.dependencies)).flatten).map formatPlainComponentItem))
            (chalkGreen (depsHeader deps.length)))
        else ""))) := by
  have hemp : deps.isEmpty = false := isEmpty_eq_false_of_ne_nil hne
  simp [dependenciesOutput, hdep, hemp, hl, Except.map, List.length_map]

theorem dependenciesOutput_isOk (inp : ReportInput)
    (hfound : ∀ deps, inp.dependencies = some deps →
      ∀ c ∈ deps.map (·.component), (findDetails inp.importDetails c).isSome) :
    ∃ dOut, dependenciesOutput inp = .ok dOut := by
  cases hdep : inp.dependencies with
  | none => exact ⟨none, by simp [dependenciesOutput, hdep]⟩
  | some deps =>
    cases deps with
    | nil => exact ⟨none, by simp [dependenciesOutput, hdep]⟩
    | cons d ds =>
      obtain ⟨lines, hl⟩ :=
        componentLines_isOk inp.importDetails _ (hfound (d :: ds) hdep)
      exact ⟨_, dependenciesOutput_eq_ok inp (d :: ds) lines hdep (by simp) hl⟩

theorem report_eq_of_dOut (inp : ReportInput) (str : String)
    (hdo : dependenciesOutput inp = .ok (some str))
    (henv : inp.envDependencies = none)
    (hstr : 0 < str.length) :
    Import.report inp = .ok (str ++ getWarningOutput inp.warnings) := by
  have h1 : strTruthy (some str) = true := by
    simp [strTruthy, isEmpty_false_of_length_pos hstr]
  simp [Import.report, hdo, Except.map, henv, envDependenciesOutput,
    getImportOutput, h1, strTruthy, isEmpty_false_of_length_pos hstr]

theorem notInBothSection_length_pos (l : List (String × String)) (h : l ≠ []) :
    0 < (notInBothSection l).length := by
  have he : l.isEmpty = false := isEmpty_eq_false_of_ne_nil h
  simp only [notInBothSection, he, Bool.false_eq_true, if_false]
  rw [String.length_append]
  have := chalkRedUnderline_length_pos
    "\nerror - missing the following package dependencies. please install and add to package.json.\n"
  omega

theorem notInPackageJsonSection_length_pos (l : List (String × String)) (h : l ≠ []) :
    0 < (notInPackageJsonSection l).length := by
  have he : l.isEmpty = false := isEmpty_eq_false_of_ne_nil h
  simp only [notInPackageJsonSection, he, Bool.false_eq_true, if_false]
  rw [String.length_append]
  have := chalkYellowUnderline_length_pos "\nwarning - add the following packages to package.json\n"
  omega

theorem notInNodeModulesSection_length_pos (l : List (String × String)) (h : l ≠ []) :
    0 < (notInNodeModulesSection l).length := by
  have he : l.isEmpty = false := isEmpty_eq_false_of_ne_nil h
  simp only [notInNodeModulesSection, he, Bool.false_eq_true, if_false]
  rw [String.length_append]
  have := chalkYellowUnderline_length_pos
    "\nwarning - following packages are not installed. please install them.\n"
  omega

theorem getWarningOutput_ne_empty (w : Warnings)
    (h : w.notInBoth ≠ [] ∨ w.notInPackageJson ≠ [] ∨ w.notInNodeModules ≠ []) :
    getWarningOutput (some w) ≠ "" := by
  have hpos : 0 < (notInBothSection w.notInBoth).length
      + (notInPackageJsonSection w.notInPackageJson).length
      + (notInNodeModulesSection w.notInNodeModules).length := by
    rcases h with h | h | h
    · have := notInBothSection_length_pos _ h; omega
    · have := notInPackageJsonSection_length_pos _ h; omega
    · have := notInNodeModulesSection_length_pos _ h; omega
  simp only [getWarningOutput]
  split
  · next hc =>
    exfalso
    have hlen := congrArg String.length hc
    rw [String.length_append, String.length_append, String.length_append] at hlen
    omega
  · next hc =>
    apply str_ne_empty_of_length_pos
    rw [String.length_append, String.length_append, String.length_append]
    omega

theorem notInBoth_header_sub_warningOutput (w : Warnings) (hb : w.notInBoth ≠ []) :
    (chalkRedUnderline
      "\nerror - missing the following package dependencies. please install and add to package.json.\n").data
      <:+: (getWarningOutput (some w)).data := by
  have hbe : w.notInBoth.isEmpty = false := isEmpty_eq_false_of_ne_nil hb
  have hsec : notInBothSection w.notInBoth =
      chalkRedUnderline
        "\nerror - missing the following package dependencies. please install and add to package.json.\n"
        ++ chalkRed (joinWith "\n" (w.notInBoth.map logObject) ++ "\n") := by
    simp [notInBothSection, hbe]
  have hpos := notInBothSection_length_pos _ hb
  have hcne : ("\n" ++ notInBothSection w.notInBoth
      ++ notInPackageJsonSection w.notInPackageJson
      ++ notInNodeModulesSection w.notInNodeModules) ≠ "\n" := by
    intro hc
    have hlen := congrArg String.length hc
    rw [String.length_append, String.length_append, String.length_append] at hlen
    omega
  simp only [getWarningOutput]
  rw [if_neg hcne]
  rw [String.data_append, String.data_append, String.data_append]
  apply sub_append_left
  apply sub_append_left
  apply sub_append_right
  rw [hsec, String.data_append]
  exact sub_append_left _ (sub_self _)

/-! ### The claims -/

/-- C1: If any identifier in an import batch is conflicted (locally
modified since last sync) and the override flag is false, the whole batch
fails with an aggregated error whose text contains every conflicted
identifier, not just the first one. -/
theorem conflictGate_error_lists_every_conflicted_id
    (entries : List (String × Bool)) (id : String)
    (hmem : (id, true) ∈ entries) :
    ∃ msg, conflictGate entries false = .error msg ∧ id.data <:+: msg.data := by
  have hidmem : id ∈ (entries.filter (fun e => e.2)).map (fun e => e.1) :=
    List.mem_map.mpr ⟨(id, true), List.mem_filter.mpr ⟨hmem, rfl⟩, rfl⟩
  have hne : ((entries.filter (fun e => e.2)).map (fun e => e.1)).isEmpty = false := by
    cases hl : (entries.filter (fun e => e.2)).map (fun e => e.1) with
    | nil => rw [hl] at hidmem; exact absurd hidmem (List.not_mem_nil id)
    | cons a as => rfl
  refine ⟨"unable to import the following components due to local changes:\n"
      ++ joinWith "\n" ((entries.filter (fun e => e.2)).map (fun e => e.1)), ?_, ?_⟩
  · simp [conflictGate, hne]
  · rw [String.data_append]
    exact sub_append_right _ (sub_joinWith "\n" _ id hidmem)

/-- Witness for C1: the two-conflict scenario of the e2e test; the error
text contains the second conflicted id, not only the first. -/
theorem conflictGate_error_lists_every_conflicted_id_witness :
    ∃ msg, conflictGate [("bar/foo", true), ("bar/foo2", true)] false = .error msg ∧
      ("bar/foo2").data <:+: msg.data :=
  conflictGate_error_lists_every_conflicted_id
    [("bar/foo", true), ("bar/foo2", true)] "bar/foo2" (by simp)

/-- C2: whenever both the tester flag and the compiler flag are set,
`Import.action` throws the `GeneralError` of line 86 — producing
`Except.error`, i.e. `importAction` (the only `Except.ok` payload) is
never called, so no network activity happens. -/
theorem action_tester_compiler_rejected
    (ids : List String) (o : ImportParsedOpts) (pm : List String)
    (ht : o.tester = true) (hc : o.compiler = true) :
    Import.action ids o pm = .error ⟨"you cant use tester and compiler flags combined"⟩ := by
  simp [Import.action, ht, hc]

/-- Witness for C2. -/
theorem action_tester_compiler_rejected_witness :
    Import.action [] { tester := true, compiler := true } [] =
      .error ⟨"you cant use tester and compiler flags combined"⟩ :=
  action_tester_compiler_rejected [] { tester := true, compiler := true } [] rfl rfl

/-- C3: the contradictory combinations objects+write and explicit
ids+write are each rejected by `Import.action` with the `GeneralError`
naming the incompatible flags, before `importAction` is ever called
(the result is `Except.error`, never the `Except.ok` carrying the
`importAction` arguments). -/
theorem action_contradictory_write_flags_rejected
    (ids : List String) (o : ImportParsedOpts) (pm : List String)
    (hnc : ¬(o.tester = true ∧ o.compiler = true)) :
    (o.objects = true → o.write = true →
      Import.action ids o pm = .error ⟨"you cant use --objects and --write flags combined"⟩) ∧
    (o.objects = false → o.write = true → ids ≠ [] →
      Import.action ids o pm = .error ⟨"you cant use --write flag when importing specific ids"⟩) := by
  have htc : (o.tester && o.compiler) = false := by
    cases ht : o.tester <;> cases hc : o.compiler <;> simp_all
  constructor
  · intro hobj hw
    simp [Import.action, htc, hobj, hw]
  · intro hobj hw hids
    have : ids.isEmpty = false := by
      cases ids with
      | nil => exact absurd rfl hids
      | cons a as => rfl
    simp [Import.action, htc, hobj, hw, this]

/-- Witness for C3: both rejections at concrete inputs. -/
theorem action_contradictory_write_flags_rejected_witness :
    Import.action [] { objects := true, write := true } [] =
        .error ⟨"you cant use --objects and --write flags combined"⟩ ∧
    Import.action ["bar/foo"] { write := true } [] =
        .error ⟨"you cant use --write flag when importing specific ids"⟩ :=
  ⟨(action_contradictory_write_flags_rejected [] { objects := true, write := true } []
      (by simp)).1 rfl rfl,
   (action_contradictory_write_flags_rejected ["bar/foo"] { write := true } []
      (by simp)).2 rfl rfl (by simp)⟩

/-- C4: with no identifiers supplied (import-all) and the write flag not
explicitly given, `Import.action` reaches `importAction` with
`ImportOptions` whose `writeToFs` is false — no filesystem write — which
per the spec-modelled engine policy directs an objects-only import. -/
theorem action_import_all_defaults_objects_only
    (o : ImportParsedOpts) (pm : List String)
    (hnc : ¬(o.tester = true ∧ o.compiler = true)) (hw : o.write = false) :
    ∃ call, Import.action [] o pm = .ok call ∧
      call.importOptions.ids = [] ∧
      call.importOptions.writeToFs = false ∧
      directsObjectsOnlyImport call.importOptions = true := by
  have htc : (o.tester && o.compiler) = false := by
    cases ht : o.tester <;> cases hc : o.compiler <;> simp_all
  refine ⟨{ environmentOptions := ⟨o.tester, o.compiler, o.extension⟩
            importOptions :=
              { ids := []
                verbose := o.verbose
                writeToPath := o.path
                objectsOnly := o.objects
                writeToFs := o.write
                withEnvironments := o.environment
                override := o.override
                writeDists := !o.ignoreDist
                writeBitJson := o.conf
                installNpmPackages := !o.skipNpmInstall
                writePackageJson := !o.ignorePackageJson }
            packageManagerArgs := pm }, ?_, rfl, hw, ?_⟩
  · simp [Import.action, htc, hw]
  · simp [directsObjectsOnlyImport, hw]

/-- Witness for C4: `bit import` with every flag at its default. -/
theorem action_import_all_defaults_objects_only_witness :
    ∃ call, Import.action [] {} [] = .ok call ∧
      call.importOptions.ids = [] ∧
      call.importOptions.writeToFs = false ∧
      directsObjectsOnlyImport call.importOptions = true :=
  action_import_all_defaults_objects_only {} [] (by simp) rfl

/-- C5: when the result carries no component dependencies and no
environment dependencies, `Import.report` returns normally and the
import-output portion is the (yellow-styled) message `nothing to import`. -/
theorem report_nothing_to_import
    (inp : ReportInput)
    (hd : inp.dependencies = none ∨ inp.dependencies = some [])
    (he : inp.envDependencies = none ∨ inp.envDependencies = some []) :
    Import.report inp = .ok (chalkYellow "nothing to import" ++ getWarningOutput inp.warnings) := by
  have hdo : dependenciesOutput inp = .ok none := by
    rcases hd with h | h <;> simp [dependenciesOutput, h]
  have heo : envDependenciesOutput inp.envDependencies = none := by
    rcases he with h | h <;> simp [envDependenciesOutput, h]
  simp [Import.report, hdo, heo, getImportOutput, strTruthy, Except.map]

/-- Witness for C5: the empty result record. -/
theorem report_nothing_to_import_witness :
    Import.report {} = .ok (chalkYellow "nothing to import" ++ getWarningOutput none) :=
  report_nothing_to_import {} (Or.inl rfl) (Or.inl rfl)

/-- A successful report (no env dependencies) starts with the green
success title. -/
theorem report_ok_with_title_prefix (inp : ReportInput)
    (deps : List ComponentWithDependencies) (lines : List String)
    (hdep : inp.dependencies = some deps) (henv : inp.envDependencies = none)
    (hne : deps ≠ [])
    (hl : componentLines inp.importDetails (deps.map (·.component)) = .ok lines) :
    ∃ s, Import.report inp = .ok s ∧
      (chalkGreen (titleFor deps.length)).data <+: s.data := by
  have hdo := dependenciesOutput_eq_ok inp deps lines hdep hne hl
  obtain ⟨peer, hdo'⟩ : ∃ peer, dependenciesOutput inp =
      .ok (some (joinWith "\n" (chalkGreen (titleFor deps.length) :: lines) ++ peer)) :=
    ⟨_, hdo⟩
  have hpre := prefix_joinWith_cons "\n" (chalkGreen (titleFor deps.length)) lines
  have hpre2 := prefix_append_str peer hpre
  have hpos : 0 < (joinWith "\n" (chalkGreen (titleFor deps.length) :: lines) ++ peer).length :=
    length_pos_of_prefix (data_ne_nil_of_length_pos (chalkGreen_length_pos _)) hpre2
  have hrep := report_eq_of_dOut inp _ hdo' henv hpos
  exact ⟨_, hrep, prefix_append_str _ hpre2⟩

/-- C6: a successful report of exactly one component is titled
`successfully imported one component`; of n > 1 components,
`successfully imported n components`. -/
theorem report_success_title
    (deps : List ComponentWithDependencies) (details : List ImportDetails)
    (w : Option Warnings) (dd : Bool)
    (hne : deps ≠ [])
    (hfound : ∀ c ∈ deps.map (·.component), (findDetails details c).isSome) :
    ∃ s, Import.report
      { dependencies := some deps, envDependencies := none,
        importDetails := details, warnings := w, displayDependencies := dd } = .ok s ∧
      (chalkGreen (titleFor deps.length)).data <+: s.data ∧
      (deps.length = 1 → titleFor deps.length = "successfully imported one component") ∧
      (1 < deps.length → titleFor deps.length =
        "successfully imported " ++ ToString.toString deps.length ++ " components") := by
  obtain ⟨lines, hl⟩ := componentLines_isOk details (deps.map (·.component)) hfound
  obtain ⟨s, hs, hp⟩ := report_ok_with_title_prefix
    { dependencies := some deps, envDependencies := none, importDetails := details,
      warnings := w, displayDependencies := dd } deps lines rfl rfl hne hl
  refine ⟨s, hs, hp, ?_, ?_⟩
  · intro h1
    simp [titleFor, h1]
  · intro h1
    have hne1 : deps.length ≠ 1 := by omega
    simp [titleFor, hne1]

/-- Witness for C6: the one-component scenario of the spec. -/
theorem report_success_title_witness :
    ∃ s, Import.report
      { dependencies := some [{ component := ⟨⟨"remote", "bar/foo", some "0.0.1"⟩⟩ }],
        envDependencies := none,
        importDetails := [⟨"remote/bar/foo", some "0.0.1", "imported"⟩],
        warnings := none, displayDependencies := false } = .ok s ∧
      (chalkGreen (titleFor ([{ component := ⟨⟨"remote", "bar/foo", some "0.0.1"⟩⟩ }]
        : List ComponentWithDependencies).length)).data <+: s.data ∧
      (([{ component := ⟨⟨"remote", "bar/foo", some "0.0.1"⟩⟩ }]
          : List ComponentWithDependencies).length = 1 →
        titleFor ([{ component := ⟨⟨"remote", "bar/foo", some "0.0.1"⟩⟩ }]
          : List ComponentWithDependencies).length = "successfully imported one component") ∧
      (1 < ([{ component := ⟨⟨"remote", "bar/foo", some "0.0.1"⟩⟩ }]
          : List ComponentWithDependencies).length →
        titleFor ([{ component := ⟨⟨"remote", "bar/foo", some "0.0.1"⟩⟩ }]
          : List ComponentWithDependencies).length =
          "successfully imported " ++ ToString.toString
            ([{ component := ⟨⟨"remote", "bar/foo", some "0.0.1"⟩⟩ }]
              : List ComponentWithDependencies).length ++ " components") :=
  report_success_title [{ component := ⟨⟨"remote", "bar/foo", some "0.0.1"⟩⟩ }]
    [⟨"remote/bar/foo", some "0.0.1", "imported"⟩] none false (by simp) (by decide)

/-- C7: a component in the dependency list with no matching
`ImportDetails` record (matched by the id without version) makes the
report throw `missing details of component <id>` — an `Except.error`
naming a component whose record is missing, never a normal return. -/
theorem report_missing_details_fatal
    (inp : ReportInput) (deps : List ComponentWithDependencies) (c : Component)
    (hdep : inp.dependencies = some deps)
    (hc : c ∈ deps.map (·.component))
    (hmiss : findDetails inp.importDetails c = none) :
    ∃ c', c' ∈ deps.map (·.component) ∧ findDetails inp.importDetails c' = none ∧
      Import.report inp = .error ("missing details of component " ++ c'.id.toString) ∧
      (c'.id.toString).data <:+: ("missing details of component " ++ c'.id.toString).data := by
  obtain ⟨c', hc', hn, herr⟩ :=
    componentLines_error_of_missing inp.importDetails _ ⟨c, hc, hmiss⟩
  have hne : deps.isEmpty = false := by
    cases deps with
    | nil => simp at hc
    | cons a as => rfl
  have hdo : dependenciesOutput inp =
      .error ("missing details of component " ++ c'.id.toString) := by
    simp [dependenciesOutput, hdep, hne, herr, Except.map]
  refine ⟨c', hc', hn, ?_, ?_⟩
  · simp [Import.report, hdo, Except.map]
  · rw [String.data_append]
    exact sub_append_right _ (sub_self _)

/-- Witness for C7: one resolved component, empty details list. -/
theorem report_missing_details_fatal_witness :
    ∃ c', c' ∈ ([{ component := ⟨⟨"remote", "bar/foo", some "0.0.1"⟩⟩ }]
        : List ComponentWithDependencies).map (·.component) ∧
      findDetails [] c' = none ∧
      Import.report
        { dependencies := some [{ component := ⟨⟨"remote", "bar/foo", some "0.0.1"⟩⟩ }],
          envDependencies := none, importDetails := [], warnings := none,
          displayDependencies := false } =
        .error ("missing details of component " ++ c'.id.toString) ∧
      (c'.id.toString).data <:+: ("missing details of component " ++ c'.id.toString).data :=
  report_missing_details_fatal
    { dependencies := some [{ component := ⟨⟨"remote", "bar/foo", some "0.0.1"⟩⟩ }],
      envDependencies := none, importDetails := [], warnings := none,
      displayDependencies := false }
    [{ component := ⟨⟨"remote", "bar/foo", some "0.0.1"⟩⟩ }]
    ⟨⟨"remote", "bar/foo", some "0.0.1"⟩⟩ rfl (by simp) rfl

/-- C8: the dependency-audit warnings never block the report: it returns
normally with the warning text appended after the import output, and the
non-empty `notInBoth` set is rendered (with the red error header) in that
appended text without aborting. -/
theorem report_warnings_never_block
    (inp : ReportInput)
    (hfound : ∀ deps, inp.dependencies = some deps →
      ∀ c ∈ deps.map (·.component), (findDetails inp.importDetails c).isSome) :
    ∃ s, Import.report inp = .ok (s ++ getWarningOutput inp.warnings) ∧
      (∀ w, inp.warnings = some w → w.notInBoth ≠ [] →
        (chalkRedUnderline
          "\nerror - missing the following package dependencies. please install and add to package.json.\n").data
          <:+: (getWarningOutput inp.warnings).data) := by
  obtain ⟨dOut, hdo⟩ := dependenciesOutput_isOk inp hfound
  refine ⟨getImportOutput dOut (envDependenciesOutput inp.envDependencies), ?_, ?_⟩
  · simp [Import.report, hdo, Except.map]
  · intro w hw hb
    rw [hw]
    exact notInBoth_header_sub_warningOutput w hb

/-- Witness for C8: nothing imported, a hard (`notInBoth`) warning present. -/
theorem report_warnings_never_block_witness :
    ∃ s, Import.report { warnings := some { notInBoth := [("pkg", "1.0.0")] } } =
        .ok (s ++ getWarningOutput (some { notInBoth := [("pkg", "1.0.0")] })) ∧
      (∀ w, (some { notInBoth := [("pkg", "1.0.0")] } : Option Warnings) = some w →
        w.notInBoth ≠ [] →
        (chalkRedUnderline
          "\nerror - missing the following package dependencies. please install and add to package.json.\n").data
          <:+: (getWarningOutput (some { notInBoth := [("pkg", "1.0.0")] })).data) :=
  report_warnings_never_block { warnings := some { notInBoth := [("pkg", "1.0.0")] } }
    (fun _ h => Option.noConfusion h)

/-- C9: the per-dependency listing appears in the report output only when
the display-dependencies flag is set and the flattened dependency list is
non-empty; otherwise the output is exactly the title plus the component
lines (plus the warning text), even when dependencies exist. -/
theorem report_display_dependencies_gate
    (deps : List ComponentWithDependencies) (details : List ImportDetails)
    (w : Option Warnings) (dd : Bool)
    (hne : deps ≠ [])
    (hfound : ∀ c ∈ deps.map (·.component), (findDetails details c).isSome) :
    ∃ lines, componentLines details (deps.map (·.component)) = .ok lines ∧
      ((dd = false ∨ (deps.map (·.dependencies)).flatten = []) →
        Import.report
          { dependencies := some deps, envDependencies := none,
            importDetails := details, warnings := w, displayDependencies := dd } =
          .ok (joinWith "\n" (chalkGreen (titleFor deps.length) :: lines)
            ++ getWarningOutput w)) ∧
      (dd = true → (deps.map (·.dependencies)).flatten ≠ [] →
        ∃ s, Import.report
          { dependencies := some deps, envDependencies := none,
            importDetails := details, warnings := w, displayDependencies := dd } = .ok s ∧
          (chalkGreen (depsHeader deps.length)).data <:+: s.data) := by
  obtain ⟨lines, hl⟩ := componentLines_isOk details (deps.map (·.component)) hfound
  have hemp : deps.isEmpty = false := isEmpty_eq_false_of_ne_nil hne
  have hpreT := prefix_joinWith_cons "\n" (chalkGreen (titleFor deps.length)) lines
  refine ⟨lines, hl, ?_, ?_⟩
  · intro hcase
    have hdo : dependenciesOutput
        { dependencies := some deps, envDependencies := none,
          importDetails := details, warnings := w, displayDependencies := dd } =
        .ok (some (joinWith "\n" (chalkGreen (titleFor deps.length) :: lines))) := by
      rcases hcase with h | h
      · simp [dependenciesOutput, hemp, hl, Except.map, List.length_map, h]
      · simp [dependenciesOutput, hemp, hl, Except.map, List.length_map, h]
    have hpos := length_pos_of_prefix
      (data_ne_nil_of_length_pos (chalkGreen_length_pos _)) hpreT
    exact report_eq_of_dOut _ _ hdo rfl hpos
  · intro hdd hpne
    have hdo : dependenciesOutput
        { dependencies := some deps, envDependencies := none,
          importDetails := details, warnings := w, displayDependencies := dd } =
        .ok (some (joinWith "\n" (chalkGreen (titleFor deps.length) :: lines)
          ++ joinWith "\n" (chalkGreen (depsHeader deps.length)
            :: uniq (((deps.map (·.dependencies)).flatten).map formatPlainComponentItem)))) := by
      simp [dependenciesOutput, hemp, hl, Except.map, List.length_map, hdd,
        isEmpty_eq_false_of_ne_nil hpne, immutableUnshift]
    have hpreH := prefix_joinWith_cons "\n" (chalkGreen (depsHeader deps.length))
      (uniq (((deps.map (·.dependencies)).flatten).map formatPlainComponentItem))
    have hpre2 := prefix_append_str
      (joinWith "\n" (chalkGreen (depsHeader deps.length)
        :: uniq (((deps.map (·.dependencies)).flatten).map formatPlainComponentItem))) hpreT
    have hpos := length_pos_of_prefix
      (data_ne_nil_of_length_pos (chalkGreen_length_pos _)) hpre2
    have hrep := report_eq_of_dOut _ _ hdo rfl hpos
    refine ⟨_, hrep, ?_⟩
    rw [String.data_append, String.data_append]
    exact sub_append_left _ (sub_append_right _ (prefix_to_sub hpreH))

/-- Witness for C9: one component with one dependency,
display-dependencies set. -/
theorem report_display_dependencies_gate_witness :
    ∃ lines, componentLines [{ id := "s/n" }]
        (([{ component := ⟨⟨"s", "n", none⟩⟩, dependencies := [⟨⟨"s", "d", none⟩⟩] }]
          : List ComponentWithDependencies).map (·.component)) = .ok lines ∧
      ((true = false ∨ (([{ component := ⟨⟨"s", "n", none⟩⟩, dependencies := [⟨⟨"s", "d", none⟩⟩] }]
          : List ComponentWithDependencies).map (·.dependencies)).flatten = []) →
        Import.report
          { dependencies := some [{ component := ⟨⟨"s", "n", none⟩⟩, dependencies := [⟨⟨"s", "d", none⟩⟩] }],
            envDependencies := none,
            importDetails := [{ id := "s/n" }], warnings := none,
            displayDependencies := true } =
          .ok (joinWith "\n" (chalkGreen (titleFor
              ([{ component := ⟨⟨"s", "n", none⟩⟩, dependencies := [⟨⟨"s", "d", none⟩⟩] }]
                : List ComponentWithDependencies).length) :: lines)
            ++ getWarningOutput none)) ∧
      (true = true → (([{ component := ⟨⟨"s", "n", none⟩⟩, dependencies := [⟨⟨"s", "d", none⟩⟩] }]
          : List ComponentWithDependencies).map (·.dependencies)).flatten ≠ [] →
        ∃ s, Import.report
          { dependencies := some [{ component := ⟨⟨"s", "n", none⟩⟩, dependencies := [⟨⟨"s", "d", none⟩⟩] }],
            envDependencies := none,
            importDetails := [{ id := "s/n" }], warnings := none,
            displayDependencies := true } = .ok s ∧
          (chalkGreen (depsHeader
            ([{ component := ⟨⟨"s", "n", none⟩⟩, dependencies := [⟨⟨"s", "d", none⟩⟩] }]
              : List ComponentWithDependencies).length)).data <:+: s.data) :=
  report_display_dependencies_gate
    [{ component := ⟨⟨"s", "n", none⟩⟩, dependencies := [⟨⟨"s", "d", none⟩⟩] }]
    [{ id := "s/n" }] none true (by simp) (by decide)

/-- C10: the warning section of the report is the empty string exactly
when the warnings object is absent or all three of its lists are empty. -/
theorem getWarningOutput_empty_iff (w? : Option Warnings) :
    getWarningOutput w? = "" ↔
      (w? = none ∨ ∃ w, w? = some w ∧ w.notInBoth = [] ∧
        w.notInPackageJson = [] ∧ w.notInNodeModules = []) := by
  cases w? with
  | none => simp [getWarningOutput]
  | some w =>
    constructor
    · intro h
      right
      refine ⟨w, rfl, ?_, ?_, ?_⟩
      · by_contra hb
        exact getWarningOutput_ne_empty w (Or.inl hb) h
      · by_contra hb
        exact getWarningOutput_ne_empty w (Or.inr (Or.inl hb)) h
      · by_contra hb
        exact getWarningOutput_ne_empty w (Or.inr (Or.inr hb)) h
    · rintro (h | ⟨w', hw', h1, h2, h3⟩)
      · exact Option.noConfusion h
      · injection hw' with hww
        subst hww
        simp [getWarningOutput, notInBothSection, notInPackageJsonSection,
          notInNodeModulesSection, h1, h2, h3]

end ImportCmd
